import Mathlib

/-!
Verification of the Workout API CRUD contract.

Shallow embedding of the three routers
(`src/workout_api/categorias/controllers.py`,
`src/workout_api/centro_treinamento/controllers.py`,
`src/workout_api/atleta/controllers.py`) over an explicit relational
store.  Each HTTP handler becomes a pure function from the store (and
the request data, plus explicit generation parameters standing for
`uuid4()` / `datetime.utcnow()` / the internal sequence) to a response
paired with the resulting store; a handler that raises `HTTPException`
returns the error response and leaves the store unchanged (the
per-request transaction contributes nothing on failure).

UUIDs and timestamps are modelled as natural numbers; Python floats
(`peso`, `altura`) are modelled as rationals, since no arithmetic is
ever performed on them.  All definitions are computable.
-/

namespace WorkoutApi

/-- Row of the Category table: internal sequence key `pk_id`, external
UUID `id`, and `nome`. -/
structure CategoriaRow where
  pk_id : Nat
  id : Nat
  nome : String
deriving Repr, DecidableEq

/-- Row of the TrainingCenter table. -/
structure CentroTreinamentoRow where
  pk_id : Nat
  id : Nat
  nome : String
  endereco : String
  proprietario : String
deriving Repr, DecidableEq

/-- Row of the Athlete table, with resolved internal foreign keys
`categoria_id` / `centro_treinamento_id`. -/
structure AtletaRow where
  pk_id : Nat
  id : Nat
  nome : String
  cpf : String
  idade : Nat
  peso : Rat
  altura : Rat
  sexo : String
  criado_em : Nat
  categoria_id : Nat
  centro_treinamento_id : Nat
deriving Repr, DecidableEq

/-- The relational store: the three tables, each a list in insertion
order (`select` with no ordering materialises rows in store order). -/
structure Store where
  categorias : List CategoriaRow
  centros : List CentroTreinamentoRow
  atletas : List AtletaRow
deriving Repr, DecidableEq

/-- An `HTTPException`: status code and detail message. -/
structure ErrResp where
  status_code : Nat
  detail : String
deriving Repr, DecidableEq

/-- A handler outcome: either an error response or a success value;
paired with the store that results from the request. -/
abbrev Resp (α : Type) := Except ErrResp α

/-- Input shape for a Category (`CategoriaIn`): just `nome`. -/
structure CategoriaIn where
  nome : String
deriving Repr, DecidableEq

/-- Output shape for a Category (`CategoriaOut`): `nome` plus the
external id. -/
structure CategoriaOut where
  id : Nat
  nome : String
deriving Repr, DecidableEq

/-- Input shape for a TrainingCenter (`CentroTreinamentoIn`). -/
structure CentroTreinamentoIn where
  nome : String
  endereco : String
  proprietario : String
deriving Repr, DecidableEq

/-- Output shape for a TrainingCenter (`CentroTreinamentoOut`). -/
structure CentroTreinamentoOut where
  id : Nat
  nome : String
  endereco : String
  proprietario : String
deriving Repr, DecidableEq

/-- Nested training-center reference inside an athlete input/output:
carries only `nome` (the input references the entity by name). -/
structure CentroTreinamentoAtleta where
  nome : String
deriving Repr, DecidableEq

/-- Modelled from the spec: `AtletaIn` (the athlete schemas module is
not under `src/`).  Input carries the scalar athlete fields plus nested
`categoria.nome` and `centro_treinamento.nome` references. -/
structure AtletaIn where
  nome : String
  cpf : String
  idade : Nat
  peso : Rat
  altura : Rat
  sexo : String
  categoria : CategoriaIn
  centro_treinamento : CentroTreinamentoAtleta
deriving Repr, DecidableEq

/-- Modelled from the spec: `AtletaOut` = `AtletaIn` plus the generated
external `id` and `criado_em` timestamp (`OutMixin` of
`src/workout_api/contrib/schemas.py`). -/
structure AtletaOut where
  id : Nat
  criado_em : Nat
  nome : String
  cpf : String
  idade : Nat
  peso : Rat
  altura : Rat
  sexo : String
  categoria : CategoriaIn
  centro_treinamento : CentroTreinamentoAtleta
deriving Repr, DecidableEq

/-- Modelled from the spec: `AtletaUpdate` (the athlete schemas module
is not under `src/`).  Every updatable field is optional; a `none`
field is "unset" and excluded by `model_dump(exclude_unset=True)`. -/
structure AtletaUpdate where
  nome : Option String := none
  cpf : Option String := none
  idade : Option Nat := none
  peso : Option Rat := none
  altura : Option Rat := none
  sexo : Option String := none
deriving Repr, DecidableEq

/-- Modelled from the spec: the page envelope `{items, total, page,
size}` produced by the pagination adapter. -/
structure PageEnvelope (α : Type) where
  items : List α
  total : Nat
  page : Nat
  size : Nat
deriving Repr, DecidableEq

/-- Modelled from the spec: the pagination adapter `paginate` wraps a
fully-materialized result list into a page envelope whose `total` is
the full list length and whose `items` are the requested slice
(`page` is 1-based, `size` is the page length). -/
def paginate (l : List α) (page size : Nat) : PageEnvelope α :=
  { items := (l.drop ((page - 1) * size)).take size
    total := l.length
    page := page
    size := size }

/-- Removes the first element satisfying `p` (what
`db_session.delete` does to the row loaded by `find?`). -/
def removeFirst (p : α → Bool) : List α → List α
  | [] => []
  | x :: xs => if p x then xs else x :: removeFirst p xs

/-- Replaces the first element satisfying `p` by `f` of it (what the
`setattr` loop does to the row loaded by `find?`). -/
def replaceFirst (p : α → Bool) (f : α → α) : List α → List α
  | [] => []
  | x :: xs => if p x then f x :: xs else x :: replaceFirst p f xs

namespace Categorias

/-- `create` of `src/workout_api/categorias/controllers.py`: builds
`CategoriaOut` with a fresh external id, inserts the row and commits.
The unique constraint on `CategoriaModel.nome` (modelled from the
spec: the models module is not under `src/`) raises `IntegrityError`
on a duplicate `nome`, answered with 303 and the conflicting value;
the failed transaction persists nothing. -/
def create (db : Store) (categoria_in : CategoriaIn) (genId genPk : Nat) :
    Resp (Nat × CategoriaOut) × Store :=
  let categoria_out : CategoriaOut := { id := genId, nome := categoria_in.nome }
  if db.categorias.any (fun c => c.nome == categoria_in.nome) then
    (.error { status_code := 303
              detail := "Já existe uma categoria cadastrada com esse nome: " ++
                categoria_out.nome }, db)
  else
    (.ok (201, categoria_out),
      { db with categorias :=
          db.categorias ++ [{ pk_id := genPk, id := genId, nome := categoria_in.nome }] })

/-- `get_all` of `src/workout_api/categorias/controllers.py`: selects
every row and paginates the output shapes. -/
def get_all (db : Store) (page size : Nat) : Nat × PageEnvelope CategoriaOut :=
  (200, paginate (db.categorias.map (fun c => { id := c.id, nome := c.nome })) page size)

/-- `get_by_id` of `src/workout_api/categorias/controllers.py`: first
row with the requested external id, or 404 naming the id. -/
def get_by_id (db : Store) (id : Nat) : Resp (Nat × CategoriaOut) :=
  match db.categorias.find? (fun c => c.id == id) with
  | none => .error { status_code := 404
                     detail := "Categoria não encontrada no id: " ++ toString id }
  | some categoria => .ok (200, { id := categoria.id, nome := categoria.nome })

end Categorias

namespace CentroTreinamento

/-- `create` of `src/workout_api/centro_treinamento/controllers.py`:
same contract as Category over the TrainingCenter shape; the unique
constraint on `nome` is modelled from the spec. -/
def create (db : Store) (centro_in : CentroTreinamentoIn) (genId genPk : Nat) :
    Resp (Nat × CentroTreinamentoOut) × Store :=
  let centro_out : CentroTreinamentoOut :=
    { id := genId, nome := centro_in.nome, endereco := centro_in.endereco
      proprietario := centro_in.proprietario }
  if db.centros.any (fun c => c.nome == centro_in.nome) then
    (.error { status_code := 303
              detail := "Já existe um centro de treinamento cadastrado com esse nome: " ++
                centro_out.nome }, db)
  else
    (.ok (201, centro_out),
      { db with centros :=
          db.centros ++ [{ pk_id := genPk, id := genId, nome := centro_in.nome
                           endereco := centro_in.endereco
                           proprietario := centro_in.proprietario }] })

/-- `get_all` of `src/workout_api/centro_treinamento/controllers.py`. -/
def get_all (db : Store) (page size : Nat) : Nat × PageEnvelope CentroTreinamentoOut :=
  (200, paginate (db.centros.map (fun c =>
    { id := c.id, nome := c.nome, endereco := c.endereco
      proprietario := c.proprietario })) page size)

/-- `get_by_id` of `src/workout_api/centro_treinamento/controllers.py`. -/
def get_by_id (db : Store) (id : Nat) : Resp (Nat × CentroTreinamentoOut) :=
  match db.centros.find? (fun c => c.id == id) with
  | none => .error { status_code := 404
                     detail := "Centro de treinamento não encontrado no id: " ++ toString id }
  | some c => .ok (200, { id := c.id, nome := c.nome, endereco := c.endereco
                          proprietario := c.proprietario })

end CentroTreinamento

namespace Atleta

/-- Serialisation of a stored athlete row through the `AtletaOut`
response model: the nested category / training-center sub-objects are
resolved from the row's internal foreign keys (modelled from the spec:
the ORM relationship loading lives in the models module, not under
`src/`). -/
def rowToOut (db : Store) (a : AtletaRow) : AtletaOut :=
  { id := a.id
    criado_em := a.criado_em
    nome := a.nome
    cpf := a.cpf
    idade := a.idade
    peso := a.peso
    altura := a.altura
    sexo := a.sexo
    categoria :=
      { nome := match db.categorias.find? (fun c => c.pk_id == a.categoria_id) with
                | some c => c.nome
                | none => "" }
    centro_treinamento :=
      { nome := match db.centros.find? (fun c => c.pk_id == a.centro_treinamento_id) with
                | some c => c.nome
                | none => "" } }

/-- `post` of `src/workout_api/atleta/controllers.py`: looks up the
category by name (400 if absent), then the training center by name
(400 if absent — note the source interpolates `categoria_name` into
that message), builds `AtletaOut` with generated id and timestamp,
inserts the row with resolved foreign keys and commits.  The unique
constraint on `cpf` (modelled from the spec: the models module is not
under `src/`) raises `IntegrityError` on a duplicate, answered with
303 naming the cpf; a failed request persists nothing. -/
def post (db : Store) (atleta_in : AtletaIn) (genId genTime genPk : Nat) :
    Resp (Nat × AtletaOut) × Store :=
  let categoria_name := atleta_in.categoria.nome
  let centro_treinamento_name := atleta_in.centro_treinamento.nome
  match db.categorias.find? (fun c => c.nome == categoria_name) with
  | none =>
    (.error { status_code := 400
              detail := "A Categoria " ++ categoria_name ++ " não encontrada." }, db)
  | some categoria =>
    match db.centros.find? (fun c => c.nome == centro_treinamento_name) with
    | none =>
      (.error { status_code := 400
                detail := "O centro de treinamento " ++ categoria_name ++
                  " não foi encontrado." }, db)
    | some centro_treinamento =>
      let atleta_out : AtletaOut :=
        { id := genId, criado_em := genTime, nome := atleta_in.nome
          cpf := atleta_in.cpf, idade := atleta_in.idade, peso := atleta_in.peso
          altura := atleta_in.altura, sexo := atleta_in.sexo
          categoria := atleta_in.categoria
          centro_treinamento := atleta_in.centro_treinamento }
      if db.atletas.any (fun a => a.cpf == atleta_in.cpf) then
        (.error { status_code := 303
                  detail := "Já existe um atleta cadastrado com o cpf: " ++
                    atleta_out.cpf }, db)
      else
        (.ok (201, atleta_out),
          { db with atletas := db.atletas ++
              [{ pk_id := genPk, id := genId, nome := atleta_in.nome
                 cpf := atleta_in.cpf, idade := atleta_in.idade
                 peso := atleta_in.peso, altura := atleta_in.altura
                 sexo := atleta_in.sexo, criado_em := genTime
                 categoria_id := categoria.pk_id
                 centro_treinamento_id := centro_treinamento.pk_id }] })

/-- `get_all` of `src/workout_api/atleta/controllers.py`: paginated
reduced projection (modelled from the spec: `AtletaGetAllDetails` is
`{nome, categoria.nome, centro_treinamento.nome}`). -/
def get_all (db : Store) (page size : Nat) :
    Nat × PageEnvelope (String × String × String) :=
  (200, paginate (db.atletas.map (fun a =>
    ((rowToOut db a).nome, (rowToOut db a).categoria.nome,
      (rowToOut db a).centro_treinamento.nome))) page size)

/-- `get_by_id` of `src/workout_api/atleta/controllers.py`: first row
with the requested external id, or 404 naming the id. -/
def get_by_id (db : Store) (id : Nat) : Resp (Nat × AtletaOut) :=
  match db.atletas.find? (fun a => a.id == id) with
  | none => .error { status_code := 404
                     detail := "Atleta não encontrada com o id: " ++ toString id }
  | some atleta => .ok (200, rowToOut db atleta)

/-- `get_by_name` of `src/workout_api/atleta/controllers.py`: first
row with the requested `nome`, or 404 naming the `nome`. -/
def get_by_name (db : Store) (nome : String) : Resp (Nat × AtletaOut) :=
  match db.atletas.find? (fun a => a.nome == nome) with
  | none => .error { status_code := 404
                     detail := "Atleta não encontrada com o nome: " ++ nome }
  | some atleta => .ok (200, rowToOut db atleta)

/-- `get_by_cpf` of `src/workout_api/atleta/controllers.py`: first row
with the requested `cpf`, or 404 naming the `cpf`. -/
def get_by_cpf (db : Store) (cpf : String) : Resp (Nat × AtletaOut) :=
  match db.atletas.find? (fun a => a.cpf == cpf) with
  | none => .error { status_code := 404
                     detail := "Atleta não encontrada com o cpf: " ++ cpf }
  | some atleta => .ok (200, rowToOut db atleta)

/-- The `setattr` loop of `partial_update`: each field present in
`model_dump(exclude_unset=True)` overwrites the row's field; unset
fields are untouched. -/
def applyUpdate (a : AtletaRow) (u : AtletaUpdate) : AtletaRow :=
  { a with
    nome := u.nome.getD a.nome
    cpf := u.cpf.getD a.cpf
    idade := u.idade.getD a.idade
    peso := u.peso.getD a.peso
    altura := u.altura.getD a.altura
    sexo := u.sexo.getD a.sexo }

/-- `partial_update` of `src/workout_api/atleta/controllers.py`: loads
the first row with the requested id (404 naming the id if absent),
overwrites exactly the fields set in the patch, commits and returns
the refreshed row serialised through `AtletaOut`. -/
def partial_update (db : Store) (id : Nat) (atleta_up : AtletaUpdate) :
    Resp (Nat × AtletaOut) × Store :=
  match db.atletas.find? (fun a => a.id == id) with
  | none =>
    (.error { status_code := 404
              detail := "Atleta não encontrada com o id: " ++ toString id }, db)
  | some atleta =>
    let db' : Store :=
      { db with atletas :=
          replaceFirst (fun a => a.id == id) (fun a => applyUpdate a atleta_up) db.atletas }
    (.ok (200, rowToOut db' (applyUpdate atleta atleta_up)), db')

/-- `delete` of `src/workout_api/atleta/controllers.py`: loads the
first row with the requested id (404 naming the id if absent), removes
it, commits and returns 204 with no content. -/
def delete (db : Store) (id : Nat) : Resp Nat × Store :=
  match db.atletas.find? (fun a => a.id == id) with
  | none =>
    (.error { status_code := 404
              detail := "Atleta não encontrada com o id: " ++ toString id }, db)
  | some _ =>
    (.ok 204, { db with atletas := removeFirst (fun a => a.id == id) db.atletas })

end Atleta

/-- `sub` occurs as a contiguous substring of `s` (checked on the
underlying character lists). -/
def hasSubstring (sub s : String) : Bool :=
  (List.range (s.data.length + 1)).any (fun i => sub.data.isPrefixOf (s.data.drop i))

end WorkoutApi

open WorkoutApi

/-- `find?` returns the head of the filtered list: the first match in
store order. -/
lemma find?_eq_head?_filter (p : α → Bool) (l : List α) :
    l.find? p = (l.filter p).head? := by
  induction l with
  | nil => rfl
  | cons x xs ih =>
    cases h : p x
    · have h' : ¬ p x := by simp [h]
      rw [List.find?_cons_of_neg _ h', List.filter_cons_of_neg h', ih]
    · rw [List.find?_cons_of_pos _ h, List.filter_cons_of_pos h]
      rfl

/-- After removing the first match from a list with at most one match,
no match remains. -/
lemma find?_removeFirst_of_countP_le_one (p : α → Bool) (l : List α)
    (h : l.countP p ≤ 1) : (removeFirst p l).find? p = none := by
  induction l with
  | nil => rfl
  | cons x xs ih =>
    rw [List.countP_cons] at h
    cases hx : p x
    · rw [hx] at h
      simp at h
      have h' : ¬ p x := by simp [hx]
      simp only [removeFirst, hx, Bool.false_eq_true, if_false]
      rw [List.find?_cons_of_neg _ h']
      exact ih (by omega)
    · rw [hx] at h
      simp at h
      simp only [removeFirst, hx, if_true]
      rw [List.find?_eq_none]
      intro y hy
      simp [h y hy]

/-- A list with exactly one match has a first match. -/
lemma find?_isSome_of_countP_eq_one (p : α → Bool) (l : List α)
    (h : l.countP p = 1) : (l.find? p).isSome := by
  rw [List.find?_isSome]
  have : 0 < l.countP p := by omega
  obtain ⟨a, ha, hpa⟩ := List.countP_pos_iff.mp this
  exact ⟨a, ha, hpa⟩

/-- C1: an athlete-create input whose `categoria.nome` matches no
Category row fails with a 400 error whose message names the missing
category, and the store is left unchanged (no athlete row is
persisted). -/
theorem atleta_post_missing_categoria (db : Store) (atleta_in : AtletaIn)
    (genId genTime genPk : Nat)
    (h : db.categorias.find? (fun c => c.nome == atleta_in.categoria.nome) = none) :
    Atleta.post db atleta_in genId genTime genPk =
      (.error { status_code := 400
                detail := "A Categoria " ++ atleta_in.categoria.nome ++
                  " não encontrada." }, db) := by
  simp [Atleta.post, h]

/-- Witness for C1 at a concrete store holding one training center and
no categories. -/
theorem atleta_post_missing_categoria_witness :
    (Store.mk [] [⟨1, 20, "CT King", "Rua X", "Marcos"⟩] []).categorias.find?
        (fun c => c.nome == (AtletaIn.mk "Joao" "12345678900" 25 75 17 "M"
          ⟨"Iniciante"⟩ ⟨"CT King"⟩).categoria.nome) = none ∧
    Atleta.post (Store.mk [] [⟨1, 20, "CT King", "Rua X", "Marcos"⟩] [])
        (AtletaIn.mk "Joao" "12345678900" 25 75 17 "M" ⟨"Iniciante"⟩ ⟨"CT King"⟩)
        100 500 1 =
      (.error { status_code := 400
                detail := "A Categoria Iniciante não encontrada." },
        Store.mk [] [⟨1, 20, "CT King", "Rua X", "Marcos"⟩] []) :=
  ⟨rfl, atleta_post_missing_categoria _ _ _ _ _ rfl⟩

/-- C2: the claim asks that the 400 message for a missing training
center include the missing training-center name; the handler instead
interpolates `categoria_name` into that message.  At a store holding
category "Iniciante" and no training centers, an input referencing
category "Iniciante" and training center "CT King" fails with a
message that contains "Iniciante" and does not contain "CT King". -/
theorem atleta_post_missing_centro_message_bug :
    (Atleta.post (Store.mk [⟨1, 10, "Iniciante"⟩] [] [])
        (AtletaIn.mk "Joao" "12345678900" 25 75 17 "M" ⟨"Iniciante"⟩ ⟨"CT King"⟩)
        100 500 1).1 =
      .error { status_code := 400
               detail := "O centro de treinamento Iniciante não foi encontrado." } ∧
    hasSubstring "CT King" "O centro de treinamento Iniciante não foi encontrado." = false ∧
    hasSubstring "Iniciante" "O centro de treinamento Iniciante não foi encontrado." = true :=
  ⟨rfl, by decide, by decide⟩

/-- C10: when both the referenced category name and the referenced
training-center name are absent, the category existence check fires
first: the operation fails with the 400 error naming the missing
category, not the training center, and the store is unchanged. -/
theorem atleta_post_categoria_checked_first (db : Store) (atleta_in : AtletaIn)
    (genId genTime genPk : Nat)
    (hcat : db.categorias.find? (fun c => c.nome == atleta_in.categoria.nome) = none)
    (_hct : db.centros.find? (fun c => c.nome == atleta_in.centro_treinamento.nome) = none) :
    Atleta.post db atleta_in genId genTime genPk =
      (.error { status_code := 400
                detail := "A Categoria " ++ atleta_in.categoria.nome ++
                  " não encontrada." }, db) := by
  simp [Atleta.post, hcat]

/-- Witness for C10 at the empty store. -/
theorem atleta_post_categoria_checked_first_witness :
    (Store.mk [] [] []).categorias.find?
        (fun c => c.nome == (AtletaIn.mk "Joao" "12345678900" 25 75 17 "M"
          ⟨"Iniciante"⟩ ⟨"CT King"⟩).categoria.nome) = none ∧
    (Store.mk [] [] []).centros.find?
        (fun c => c.nome == (AtletaIn.mk "Joao" "12345678900" 25 75 17 "M"
          ⟨"Iniciante"⟩ ⟨"CT King"⟩).centro_treinamento.nome) = none ∧
    Atleta.post (Store.mk [] [] [])
        (AtletaIn.mk "Joao" "12345678900" 25 75 17 "M" ⟨"Iniciante"⟩ ⟨"CT King"⟩)
        100 500 1 =
      (.error { status_code := 400
                detail := "A Categoria Iniciante não encontrada." },
        Store.mk [] [] []) :=
  ⟨rfl, rfl, atleta_post_categoria_checked_first _ _ _ _ _ rfl rfl⟩

/-- C3: creating a Category whose `nome` is already present fails with
the 303 duplicate error carrying the conflicting `nome`, the store is
unchanged, and the number of Category rows with that `nome` is
unchanged (so no duplicate row is added). -/
theorem categorias_create_duplicate_nome (db : Store) (categoria_in : CategoriaIn)
    (genId genPk : Nat)
    (h : db.categorias.any (fun c => c.nome == categoria_in.nome) = true) :
    Categorias.create db categoria_in genId genPk =
      (.error { status_code := 303
                detail := "Já existe uma categoria cadastrada com esse nome: " ++
                  categoria_in.nome }, db) ∧
    ((Categorias.create db categoria_in genId genPk).2).categorias.countP
        (fun c => c.nome == categoria_in.nome) =
      db.categorias.countP (fun c => c.nome == categoria_in.nome) := by
  constructor
  · simp [Categorias.create, h]
  · simp [Categorias.create, h]

/-- Witness for C3 at a store already holding category "Iniciante". -/
theorem categorias_create_duplicate_nome_witness :
    (Store.mk [⟨1, 10, "Iniciante"⟩] [] []).categorias.any
        (fun c => c.nome == (CategoriaIn.mk "Iniciante").nome) = true ∧
    Categorias.create (Store.mk [⟨1, 10, "Iniciante"⟩] [] [])
        (CategoriaIn.mk "Iniciante") 11 2 =
      (.error { status_code := 303
                detail := "Já existe uma categoria cadastrada com esse nome: Iniciante" },
        Store.mk [⟨1, 10, "Iniciante"⟩] [] []) :=
  ⟨rfl, (categorias_create_duplicate_nome (Store.mk [⟨1, 10, "Iniciante"⟩] [] [])
    (CategoriaIn.mk "Iniciante") 11 2 rfl).1⟩

/-- C8: for every store and every pagination parameters, each list
operation returns a page envelope whose `total` equals the number of
rows of that entity in the store, independent of the requested size. -/
theorem get_all_total_counts_all_rows (db : Store) (page size : Nat) :
    (Categorias.get_all db page size).2.total = db.categorias.length ∧
    (CentroTreinamento.get_all db page size).2.total = db.centros.length ∧
    (Atleta.get_all db page size).2.total = db.atletas.length := by
  refine ⟨?_, ?_, ?_⟩ <;>
    simp [Categorias.get_all, CentroTreinamento.get_all, Atleta.get_all, paginate]

/-- C7: for each of the three entities, `get_by_id` on an id matching
no row fails with a 404 error whose message includes the requested id,
and on an id matching a row returns that row's output shape with
status 200. -/
theorem get_by_id_contract (db : Store) (id : Nat) :
    (db.categorias.find? (fun c => c.id == id) = none →
      Categorias.get_by_id db id =
        .error { status_code := 404
                 detail := "Categoria não encontrada no id: " ++ toString id }) ∧
    (∀ c, db.categorias.find? (fun x => x.id == id) = some c →
      Categorias.get_by_id db id = .ok (200, { id := c.id, nome := c.nome })) ∧
    (db.centros.find? (fun c => c.id == id) = none →
      CentroTreinamento.get_by_id db id =
        .error { status_code := 404
                 detail := "Centro de treinamento não encontrado no id: " ++ toString id }) ∧
    (∀ c, db.centros.find? (fun x => x.id == id) = some c →
      CentroTreinamento.get_by_id db id =
        .ok (200, { id := c.id, nome := c.nome, endereco := c.endereco
                    proprietario := c.proprietario })) ∧
    (db.atletas.find? (fun a => a.id == id) = none →
      Atleta.get_by_id db id =
        .error { status_code := 404
                 detail := "Atleta não encontrada com o id: " ++ toString id }) ∧
    (∀ a, db.atletas.find? (fun x => x.id == id) = some a →
      Atleta.get_by_id db id = .ok (200, Atleta.rowToOut db a)) := by
  refine ⟨fun h => ?_, fun c h => ?_, fun h => ?_, fun c h => ?_, fun h => ?_, fun a h => ?_⟩ <;>
    simp [Categorias.get_by_id, CentroTreinamento.get_by_id, Atleta.get_by_id, h]

/-- Witness for C7: a one-row store per entity, hit and miss cases. -/
theorem get_by_id_contract_witness :
    Categorias.get_by_id (Store.mk [⟨1, 10, "Iniciante"⟩] [] []) 99 =
      .error { status_code := 404
               detail := "Categoria não encontrada no id: 99" } ∧
    Categorias.get_by_id (Store.mk [⟨1, 10, "Iniciante"⟩] [] []) 10 =
      .ok (200, { id := 10, nome := "Iniciante" }) ∧
    CentroTreinamento.get_by_id
        (Store.mk [] [⟨1, 20, "CT King", "Rua X", "Marcos"⟩] []) 99 =
      .error { status_code := 404
               detail := "Centro de treinamento não encontrado no id: 99" } ∧
    CentroTreinamento.get_by_id
        (Store.mk [] [⟨1, 20, "CT King", "Rua X", "Marcos"⟩] []) 20 =
      .ok (200, { id := 20, nome := "CT King", endereco := "Rua X"
                  proprietario := "Marcos" }) ∧
    Atleta.get_by_id (Store.mk [] [] [⟨1, 100, "Joao", "123", 25, 75, 17, "M", 500, 1, 1⟩]) 99 =
      .error { status_code := 404
               detail := "Atleta não encontrada com o id: 99" } ∧
    Atleta.get_by_id (Store.mk [] [] [⟨1, 100, "Joao", "123", 25, 75, 17, "M", 500, 1, 1⟩]) 100 =
      .ok (200, Atleta.rowToOut (Store.mk [] [] [⟨1, 100, "Joao", "123", 25, 75, 17, "M", 500, 1, 1⟩])
        ⟨1, 100, "Joao", "123", 25, 75, 17, "M", 500, 1, 1⟩) :=
  ⟨(get_by_id_contract (Store.mk [⟨1, 10, "Iniciante"⟩] [] []) 99).1 rfl,
   (get_by_id_contract (Store.mk [⟨1, 10, "Iniciante"⟩] [] []) 10).2.1 ⟨1, 10, "Iniciante"⟩ rfl,
   (get_by_id_contract (Store.mk [] [⟨1, 20, "CT King", "Rua X", "Marcos"⟩] []) 99).2.2.1 rfl,
   (get_by_id_contract (Store.mk [] [⟨1, 20, "CT King", "Rua X", "Marcos"⟩] []) 20).2.2.2.1
     ⟨1, 20, "CT King", "Rua X", "Marcos"⟩ rfl,
   (get_by_id_contract (Store.mk [] [] [⟨1, 100, "Joao", "123", 25, 75, 17, "M", 500, 1, 1⟩]) 99).2.2.2.2.1 rfl,
   (get_by_id_contract (Store.mk [] [] [⟨1, 100, "Joao", "123", 25, 75, 17, "M", 500, 1, 1⟩]) 100).2.2.2.2.2
     ⟨1, 100, "Joao", "123", 25, 75, 17, "M", 500, 1, 1⟩ rfl⟩

/-- C9: `get_by_name` (resp. `get_by_cpf`) returns the first matching
row in store order — the head of the matches — even when several rows
share the looked-up value, and fails with a 404 naming the lookup key
when no row matches. -/
theorem get_by_name_cpf_first_match (db : Store) (nome cpf : String) :
    (∀ a rest, db.atletas.filter (fun x => x.nome == nome) = a :: rest →
      Atleta.get_by_name db nome = .ok (200, Atleta.rowToOut db a)) ∧
    (db.atletas.filter (fun x => x.nome == nome) = [] →
      Atleta.get_by_name db nome =
        .error { status_code := 404
                 detail := "Atleta não encontrada com o nome: " ++ nome }) ∧
    (∀ a rest, db.atletas.filter (fun x => x.cpf == cpf) = a :: rest →
      Atleta.get_by_cpf db cpf = .ok (200, Atleta.rowToOut db a)) ∧
    (db.atletas.filter (fun x => x.cpf == cpf) = [] →
      Atleta.get_by_cpf db cpf =
        .error { status_code := 404
                 detail := "Atleta não encontrada com o cpf: " ++ cpf }) := by
  refine ⟨fun a rest h => ?_, fun h => ?_, fun a rest h => ?_, fun h => ?_⟩ <;>
    simp [Atleta.get_by_name, Atleta.get_by_cpf, find?_eq_head?_filter, h]

/-- Witness for C9: two athletes share `nome` "Joao"; the lookup
returns the first in store order, and a missing nome / cpf yields the
404. -/
theorem get_by_name_cpf_first_match_witness :
    (Store.mk [] [] [⟨1, 100, "Joao", "111", 25, 75, 17, "M", 500, 1, 1⟩,
        ⟨2, 200, "Joao", "222", 30, 80, 18, "M", 600, 1, 1⟩]).atletas.filter
      (fun x => x.nome == "Joao") =
        ⟨1, 100, "Joao", "111", 25, 75, 17, "M", 500, 1, 1⟩ ::
          [⟨2, 200, "Joao", "222", 30, 80, 18, "M", 600, 1, 1⟩] ∧
    Atleta.get_by_name (Store.mk [] [] [⟨1, 100, "Joao", "111", 25, 75, 17, "M", 500, 1, 1⟩,
        ⟨2, 200, "Joao", "222", 30, 80, 18, "M", 600, 1, 1⟩]) "Joao" =
      .ok (200, Atleta.rowToOut (Store.mk [] [] [⟨1, 100, "Joao", "111", 25, 75, 17, "M", 500, 1, 1⟩,
        ⟨2, 200, "Joao", "222", 30, 80, 18, "M", 600, 1, 1⟩])
        ⟨1, 100, "Joao", "111", 25, 75, 17, "M", 500, 1, 1⟩) ∧
    Atleta.get_by_cpf (Store.mk [] [] [⟨1, 100, "Joao", "111", 25, 75, 17, "M", 500, 1, 1⟩,
        ⟨2, 200, "Joao", "222", 30, 80, 18, "M", 600, 1, 1⟩]) "999" =
      .error { status_code := 404
               detail := "Atleta não encontrada com o cpf: 999" } :=
  ⟨rfl,
   (get_by_name_cpf_first_match (Store.mk [] [] [⟨1, 100, "Joao", "111", 25, 75, 17, "M", 500, 1, 1⟩,
      ⟨2, 200, "Joao", "222", 30, 80, 18, "M", 600, 1, 1⟩]) "Joao" "999").1
     ⟨1, 100, "Joao", "111", 25, 75, 17, "M", 500, 1, 1⟩
     [⟨2, 200, "Joao", "222", 30, 80, 18, "M", 600, 1, 1⟩] rfl,
   (get_by_name_cpf_first_match (Store.mk [] [] [⟨1, 100, "Joao", "111", 25, 75, 17, "M", 500, 1, 1⟩,
      ⟨2, 200, "Joao", "222", 30, 80, 18, "M", 600, 1, 1⟩]) "Joao" "999").2.2.2 rfl⟩

/-- C5: for an athlete id present in the store (exactly one row, as
ids are unique generated UUIDs), `delete` succeeds with 204 and no
content, and `get_by_id` on the resulting store fails with a 404
error whose message includes that id. -/
theorem atleta_delete_then_get_not_found (db : Store) (id : Nat)
    (h : db.atletas.countP (fun a => a.id == id) = 1) :
    (Atleta.delete db id).1 = .ok 204 ∧
    Atleta.get_by_id (Atleta.delete db id).2 id =
      .error { status_code := 404
               detail := "Atleta não encontrada com o id: " ++ toString id } := by
  have hsome := find?_isSome_of_countP_eq_one (fun a => a.id == id) db.atletas h
  obtain ⟨a, ha⟩ := Option.isSome_iff_exists.mp hsome
  have hrm : (removeFirst (fun a => a.id == id) db.atletas).find?
      (fun a => a.id == id) = none :=
    find?_removeFirst_of_countP_le_one _ _ (by omega)
  constructor
  · simp [Atleta.delete, ha]
  · simp [Atleta.delete, ha, Atleta.get_by_id, hrm]

/-- Witness for C5 at a one-athlete store. -/
theorem atleta_delete_then_get_not_found_witness :
    (Store.mk [] [] [⟨1, 100, "Joao", "111", 25, 75, 17, "M", 500, 1, 1⟩]).atletas.countP
      (fun a => a.id == 100) = 1 ∧
    (Atleta.delete (Store.mk [] [] [⟨1, 100, "Joao", "111", 25, 75, 17, "M", 500, 1, 1⟩]) 100).1 =
      .ok 204 ∧
    Atleta.get_by_id
        (Atleta.delete (Store.mk [] [] [⟨1, 100, "Joao", "111", 25, 75, 17, "M", 500, 1, 1⟩]) 100).2
        100 =
      .error { status_code := 404
               detail := "Atleta não encontrada com o id: 100" } :=
  ⟨rfl,
   (atleta_delete_then_get_not_found
     (Store.mk [] [] [⟨1, 100, "Joao", "111", 25, 75, 17, "M", 500, 1, 1⟩]) 100 rfl).1,
   (atleta_delete_then_get_not_found
     (Store.mk [] [] [⟨1, 100, "Joao", "111", 25, 75, 17, "M", 500, 1, 1⟩]) 100 rfl).2⟩

/-- C4: `partial_update` overwrites exactly the fields explicitly set
in the patch and leaves every other field of the targeted row
unchanged; in particular a patch containing only `peso` changes only
`peso`, leaving `nome`, `cpf`, `idade`, `altura` and `sexo` unchanged,
and returns the updated output shape with status 200. -/
theorem atleta_partial_update_frame (db : Store) (id : Nat) (a : AtletaRow)
    (u : AtletaUpdate) (p : Rat)
    (h : db.atletas.find? (fun x => x.id == id) = some a) :
    (Atleta.partial_update db id u =
      (.ok (200, Atleta.rowToOut
          { db with atletas := (replaceFirst (fun x => x.id == id)
              (fun x => Atleta.applyUpdate x u) db.atletas) }
          (Atleta.applyUpdate a u)),
        { db with atletas := (replaceFirst (fun x => x.id == id)
            (fun x => Atleta.applyUpdate x u) db.atletas) })) ∧
    ((Atleta.partial_update db id { peso := some p }).1 =
      .ok (200, Atleta.rowToOut
        { db with atletas := (replaceFirst (fun x => x.id == id)
            (fun x => { x with peso := p }) db.atletas) }
        { a with peso := p })) ∧
    (Atleta.applyUpdate a { peso := some p } = { a with peso := p }) ∧
    (∀ db2 : Store, (Atleta.rowToOut db2 { a with peso := p }).nome = a.nome ∧
      (Atleta.rowToOut db2 { a with peso := p }).cpf = a.cpf ∧
      (Atleta.rowToOut db2 { a with peso := p }).idade = a.idade ∧
      (Atleta.rowToOut db2 { a with peso := p }).altura = a.altura ∧
      (Atleta.rowToOut db2 { a with peso := p }).sexo = a.sexo ∧
      (Atleta.rowToOut db2 { a with peso := p }).peso = p) ∧
    (u.nome = none → (Atleta.applyUpdate a u).nome = a.nome) ∧
    (∀ v, u.nome = some v → (Atleta.applyUpdate a u).nome = v) ∧
    (u.cpf = none → (Atleta.applyUpdate a u).cpf = a.cpf) ∧
    (∀ v, u.cpf = some v → (Atleta.applyUpdate a u).cpf = v) ∧
    (u.idade = none → (Atleta.applyUpdate a u).idade = a.idade) ∧
    (∀ v, u.idade = some v → (Atleta.applyUpdate a u).idade = v) ∧
    (u.peso = none → (Atleta.applyUpdate a u).peso = a.peso) ∧
    (∀ v, u.peso = some v → (Atleta.applyUpdate a u).peso = v) ∧
    (u.altura = none → (Atleta.applyUpdate a u).altura = a.altura) ∧
    (∀ v, u.altura = some v → (Atleta.applyUpdate a u).altura = v) ∧
    (u.sexo = none → (Atleta.applyUpdate a u).sexo = a.sexo) ∧
    (∀ v, u.sexo = some v → (Atleta.applyUpdate a u).sexo = v) := by
  refine ⟨?_, ?_, ?_, ?_, ?_, ?_, ?_, ?_, ?_, ?_, ?_, ?_, ?_, ?_, ?_, ?_⟩
  · simp [Atleta.partial_update, h]
  · simp [Atleta.partial_update, h, Atleta.applyUpdate]
  · simp [Atleta.applyUpdate]
  · intro db2
    refine ⟨?_, ?_, ?_, ?_, ?_, ?_⟩ <;> simp [Atleta.rowToOut]
  all_goals
    first
      | (intro hu; simp [Atleta.applyUpdate, hu])
      | (intro v hu; simp [Atleta.applyUpdate, hu])

/-- Witness for C4: patching only `peso` at a one-athlete store. -/
theorem atleta_partial_update_frame_witness :
    (Store.mk [⟨1, 10, "Iniciante"⟩] [⟨1, 20, "CT King", "Rua X", "Marcos"⟩]
        [⟨1, 100, "Joao", "111", 25, 75, 17, "M", 500, 1, 1⟩]).atletas.find?
      (fun x => x.id == 100) = some ⟨1, 100, "Joao", "111", 25, 75, 17, "M", 500, 1, 1⟩ ∧
    (Atleta.partial_update
        (Store.mk [⟨1, 10, "Iniciante"⟩] [⟨1, 20, "CT King", "Rua X", "Marcos"⟩]
          [⟨1, 100, "Joao", "111", 25, 75, 17, "M", 500, 1, 1⟩])
        100 { peso := some (161 / 2) }).1 =
      .ok (200, Atleta.rowToOut
        (Store.mk [⟨1, 10, "Iniciante"⟩] [⟨1, 20, "CT King", "Rua X", "Marcos"⟩]
          [⟨1, 100, "Joao", "111", 25, 161 / 2, 17, "M", 500, 1, 1⟩])
        ⟨1, 100, "Joao", "111", 25, 161 / 2, 17, "M", 500, 1, 1⟩) :=
  ⟨rfl,
   (atleta_partial_update_frame
     (Store.mk [⟨1, 10, "Iniciante"⟩] [⟨1, 20, "CT King", "Rua X", "Marcos"⟩]
       [⟨1, 100, "Joao", "111", 25, 75, 17, "M", 500, 1, 1⟩])
     100 ⟨1, 100, "Joao", "111", 25, 75, 17, "M", 500, 1, 1⟩
     {} (161 / 2) rfl).2.1⟩

/-- C6: creating an athlete whose referenced category and
training-center names both exist returns 201 with an output carrying
the generated id and timestamp plus the nested sub-objects from the
input, and `get_by_id` at the generated id on the resulting store
returns the same representation with 200.  The hypotheses are the
store invariants: the generated UUID is fresh, the cpf is not already
taken, and the internal keys of the two referenced rows resolve back
to those rows. -/
theorem atleta_post_get_roundtrip (db : Store) (atleta_in : AtletaIn)
    (genId genTime genPk : Nat) (cat : CategoriaRow) (ct : CentroTreinamentoRow)
    (hcat : db.categorias.find? (fun c => c.nome == atleta_in.categoria.nome) = some cat)
    (hct : db.centros.find? (fun c => c.nome == atleta_in.centro_treinamento.nome) = some ct)
    (hcpf : db.atletas.any (fun a => a.cpf == atleta_in.cpf) = false)
    (hfresh : db.atletas.find? (fun a => a.id == genId) = none)
    (hcatpk : db.categorias.find? (fun c => c.pk_id == cat.pk_id) = some cat)
    (hctpk : db.centros.find? (fun c => c.pk_id == ct.pk_id) = some ct) :
    (Atleta.post db atleta_in genId genTime genPk).1 =
      .ok (201, { id := genId, criado_em := genTime, nome := atleta_in.nome
                  cpf := atleta_in.cpf, idade := atleta_in.idade
                  peso := atleta_in.peso, altura := atleta_in.altura
                  sexo := atleta_in.sexo, categoria := atleta_in.categoria
                  centro_treinamento := atleta_in.centro_treinamento }) ∧
    Atleta.get_by_id (Atleta.post db atleta_in genId genTime genPk).2 genId =
      .ok (200, { id := genId, criado_em := genTime, nome := atleta_in.nome
                  cpf := atleta_in.cpf, idade := atleta_in.idade
                  peso := atleta_in.peso, altura := atleta_in.altura
                  sexo := atleta_in.sexo, categoria := atleta_in.categoria
                  centro_treinamento := atleta_in.centro_treinamento }) := by
  have hcatnome : cat.nome = atleta_in.categoria.nome := by
    have := List.find?_some hcat
    simpa using this
  have hctnome : ct.nome = atleta_in.centro_treinamento.nome := by
    have := List.find?_some hct
    simpa using this
  constructor
  · simp [Atleta.post, hcat, hct, hcpf]
  · simp [Atleta.post, hcat, hct, hcpf, Atleta.get_by_id, List.find?_append, hfresh,
      Atleta.rowToOut, hcatpk, hctpk, hcatnome, hctnome]

/-- Witness for C6 at a store holding category "Iniciante" and
training center "CT King". -/
theorem atleta_post_get_roundtrip_witness :
    (Store.mk [⟨1, 10, "Iniciante"⟩] [⟨1, 20, "CT King", "Rua X", "Marcos"⟩] []).categorias.find?
      (fun c => c.nome == "Iniciante") = some ⟨1, 10, "Iniciante"⟩ ∧
    (Atleta.post (Store.mk [⟨1, 10, "Iniciante"⟩] [⟨1, 20, "CT King", "Rua X", "Marcos"⟩] [])
        (AtletaIn.mk "Joao" "12345678900" 25 75 17 "M" ⟨"Iniciante"⟩ ⟨"CT King"⟩)
        100 500 1).1 =
      .ok (201, AtletaOut.mk 100 500 "Joao" "12345678900" 25 75 17 "M"
        ⟨"Iniciante"⟩ ⟨"CT King"⟩) ∧
    Atleta.get_by_id
        (Atleta.post (Store.mk [⟨1, 10, "Iniciante"⟩] [⟨1, 20, "CT King", "Rua X", "Marcos"⟩] [])
          (AtletaIn.mk "Joao" "12345678900" 25 75 17 "M" ⟨"Iniciante"⟩ ⟨"CT King"⟩)
          100 500 1).2 100 =
      .ok (200, AtletaOut.mk 100 500 "Joao" "12345678900" 25 75 17 "M"
        ⟨"Iniciante"⟩ ⟨"CT King"⟩) :=
  ⟨rfl,
   (atleta_post_get_roundtrip
     (Store.mk [⟨1, 10, "Iniciante"⟩] [⟨1, 20, "CT King", "Rua X", "Marcos"⟩] [])
     (AtletaIn.mk "Joao" "12345678900" 25 75 17 "M" ⟨"Iniciante"⟩ ⟨"CT King"⟩)
     100 500 1 ⟨1, 10, "Iniciante"⟩ ⟨1, 20, "CT King", "Rua X", "Marcos"⟩
     rfl rfl rfl rfl rfl rfl).1,
   (atleta_post_get_roundtrip
     (Store.mk [⟨1, 10, "Iniciante"⟩] [⟨1, 20, "CT King", "Rua X", "Marcos"⟩] [])
     (AtletaIn.mk "Joao" "12345678900" 25 75 17 "M" ⟨"Iniciante"⟩ ⟨"CT King"⟩)
     100 500 1 ⟨1, 10, "Iniciante"⟩ ⟨1, 20, "CT King", "Rua X", "Marcos"⟩
     rfl rfl rfl rfl rfl rfl).2⟩
